import Mathlib

/-!
Verification development for the registration scheduler in `src/Main.py`
(class `BereaRegistrationBot`). Timestamps and durations are modelled as
rationals (seconds on a single UTC timeline; the pytz localize/astimezone
conversion of the target is an affine shift absorbed into the target
value). Sleeps are modelled as exact, and the fuel arguments below only
make the Python `while` loops structurally recursive: every theorem about
a loop is stated on runs the fuel completes.
-/

namespace BereaBot

/-- Tier selection of the coarse polling loop (Main.py lines 436-443):
remaining time over 30 s sleeps 30 s, over 5 s sleeps 5 s, otherwise 0.5 s. -/
def sleepTier (remaining : ℚ) : ℚ :=
  if remaining > 30 then 30
  else if remaining > 5 then 5
  else 1/2

/-- Coarse wait loop of `run_registration` (Main.py lines 431-446). The
state is the current local time `now`; each iteration re-checks
`now < tmb` (with `tmb` the target minus the final-poll buffer), computes
the remaining time from the freshly sampled `now`, sleeps the tier
duration and re-samples. Returns the list of sleep durations performed
and the exit time, or `none` when `fuel` iterations did not reach the
exit. -/
def coarseLoop (tmb : ℚ) : ℚ → ℕ → Option (List ℚ × ℚ)
  | now, 0 => if now < tmb then none else some ([], now)
  | now, fuel + 1 =>
    if now < tmb then
      match coarseLoop tmb (now + sleepTier (tmb - now)) fuel with
      | none => none
      | some (ds, t) => some (sleepTier (tmb - now) :: ds, t)
    else some ([], now)

/-- Observable events of the timed scheduling phase of `run_registration`. -/
inductive Ev
  | tierSleep (d : ℚ)
  | finalSleep (d : ℚ)
  | warnNoLead
  | syncFailedLog
  | fallbackSleep (d : ℚ)
  | submitPin
  deriving DecidableEq

/-- Outcome of the single final-sync HEAD probe (Main.py lines 453-459):
either the Date header of the response parsed to a server UTC time, or
the probe failed (network error, missing Date header, or a malformed
date string; HTTP and date parsing are outside the embedding, only the
parsed result or its absence is modelled). -/
inductive ProbeOutcome
  | ok (serverTime : ℚ)
  | failed
  deriving DecidableEq

/-- One probe: how long the HEAD round trip (or, on failure, the raising
of the exception) took, and its outcome. -/
structure Probe where
  duration : ℚ
  outcome : ProbeOutcome
  deriving DecidableEq

/-- Final synchronization step of `run_registration` (Main.py lines
452-489), entered at local time `tSync`. On a parsed Date header the
code computes `offset := serverTime - receipt` where `receipt` is the
local time sampled right after the response (line 460), the fire instant
`target - offset` (line 472), and the remaining sleep as that instant
minus a fresh now sampled after the probe completed (line 475;
`compDelay` is the nonnegative time the intervening computations take);
a positive remainder is slept in a single `time.sleep`, otherwise a
warning is logged and control continues immediately (lines 477-482). On
a failed probe the except block logs and falls back to sleeping until
the unmodified local target (lines 484-489). Returns the events and the
local time at which control reaches the PIN submission. -/
def finalSyncPhase (target tSync : ℚ) (probe : Probe) (compDelay : ℚ) : List Ev × ℚ :=
  match probe.outcome with
  | .ok serverTime =>
    let receipt := tSync + probe.duration
    let offset := serverTime - receipt
    let fireAt := target - offset
    let nowAfter := receipt + compDelay
    let sleepSeconds := fireAt - nowAfter
    if sleepSeconds > 0 then ([.finalSleep sleepSeconds], nowAfter + sleepSeconds)
    else ([.warnNoLead], nowAfter)
  | .failed =>
    let nowFail := tSync + probe.duration + compDelay
    let remainingLocal := target - nowFail
    if remainingLocal > 0 then
      ([.syncFailedLog, .fallbackSleep remainingLocal], nowFail + remainingLocal)
    else ([.syncFailedLog], nowFail)

/-- The timed scheduling section of `run_registration` for a set target
(Main.py lines 423-492): coarse wait until `target - lead` (the code
fixes `lead` to the constant `FINAL_POLL_BUFFER_SECONDS = 25`), one
final-sync probe, then the single `submit_pin_form` call of line 492. -/
def schedulePhase (target lead now0 : ℚ) (fuel : ℕ) (probe : Probe) (compDelay : ℚ) :
    Option (List Ev × ℚ) :=
  match coarseLoop (target - lead) now0 fuel with
  | none => none
  | some (ds, tExit) =>
    let r := finalSyncPhase target tExit probe compDelay
    some (ds.map Ev.tierSleep ++ r.1 ++ [Ev.submitPin], r.2)

/-- Recognizer for the submission event, used to count how often the
time-critical `submit_pin_form` call occurs in a trace. -/
def isSubmit : Ev → Bool
  | .submitPin => true
  | _ => false

/-- Range validation of the spinbox values (Main.py `validate_time`,
lines 304-317): out-of-range values raise and are reported, yielding no
time triple. -/
def validate_time (hour minute second : ℤ) : Option (ℤ × ℤ × ℤ) :=
  if 0 ≤ hour ∧ hour ≤ 23 ∧ 0 ≤ minute ∧ minute ≤ 59 ∧ 0 ≤ second ∧ second ≤ 59
  then some (hour, minute, second)
  else none

/-- Outcome of the start-at-set-time control (Main.py lines 351-365):
invalid spinbox values, rejection of a past target before anything is
scheduled, or handing the target to `schedule_registration`. -/
inductive StartOutcome
  | invalidTime
  | pastDeadline
  | scheduled (target : ℚ)
  deriving DecidableEq

/-- The `start_at_time` handler (Main.py lines 351-365). The target is
the date of the first `datetime.now()` call with the requested time of
day substituted (`base` is local midnight of that date); `now` is the
second, later `datetime.now()` sample used in the comparison of line
360. A target strictly before `now` is rejected with a past-time error
before any sleeping or scheduling; otherwise `schedule_registration`
is invoked with the target. -/
def start_at_time (hour minute second : ℤ) (base now : ℚ) : StartOutcome :=
  match validate_time hour minute second with
  | none => .invalidTime
  | some (h, m, s) =>
    let target : ℚ := base + 3600 * (h : ℚ) + 60 * (m : ℚ) + (s : ℚ)
    if target < now then .pastDeadline else .scheduled target

/-- Insertion of one element into an ascending list; `pySort` below
mirrors the ascending in-place `list.sort()` of Main.py line 293. -/
def insertAsc (x : ℚ) : List ℚ → List ℚ
  | [] => [x]
  | y :: ys => if x ≤ y then x :: y :: ys else y :: insertAsc x ys

/-- Ascending sort of the measured delays. -/
def pySort (l : List ℚ) : List ℚ := l.foldr insertAsc []

/-- Buffer calibration (Main.py `calibrate_dynamic_buffer`, lines
277-302). `delays` holds the round-trip durations of the trials whose
HEAD request succeeded; a trial that raises contributes nothing. With at
least one delay the code sorts, takes the element at index
`len(delays) // 2`, adds `margin` and clamps into
`[min_buffer, max_buffer]`; with no delays it returns the fixed default
0.3 (line 302). -/
def calibrate_dynamic_buffer (delays : List ℚ) (margin min_buffer max_buffer : ℚ) : ℚ :=
  if delays.isEmpty then 3/10
  else
    let median_delay := (pySort delays).getD (delays.length / 2) 0
    let calibrated := median_delay + margin
    max min_buffer (min calibrated max_buffer)

/-- Per-step results of one registration run: whether driver creation
succeeded and the Python truthiness of what each pipeline step returned.
The timed wait of Main.py lines 422-498 sits between `enterPin` and
`submitPinForm` and is modelled separately by `schedulePhase`. -/
structure StepResults where
  driverOk : Bool
  login : Bool
  selectTerm : Bool
  enterPin : Bool
  submitPinForm : Bool
  enterCrns : Bool
  submitRegistration : Bool
  deriving DecidableEq

/-- The pipeline steps named by the spec. -/
inductive Step
  | login
  | selectTerm
  | enterPin
  | submitPinForm
  | enterCrns
  | submitRegistration
  deriving DecidableEq

/-- Observable events of the `run_registration` thread body: a pipeline
step being executed, a user-visible message box, and the re-enabling of
the start buttons performed by the finally block. -/
inductive RunEv
  | step (s : Step)
  | errorBox (msg : String)
  | infoBox (msg : String)
  | reenable
  deriving DecidableEq

/-- Control flow of the `run_registration` thread body (Main.py lines
404-525). Each checked step that returns falsy raises; the except block
shows one error box; the finally block re-enables the start buttons on
every exit path. A failed `_create_driver` first shows its own box
(`messagebox.showerror("Driver Error", ...)`, line 171) and then
re-raises into the thread handler, which shows a second box (line 518),
so the driver-failure path carries two user-visible boxes. The return
value of `submit_pin_form` is not inspected at line 492, so the flow
continues to `enter_crns` regardless of it. A falsy
`submit_registration` result produces the failure box of line 512
without raising. -/
def runRegistrationTrace (r : StepResults) : List RunEv :=
  (if r.driverOk then
    RunEv.step .login ::
    (if r.login then
      RunEv.step .selectTerm ::
      (if r.selectTerm then
        RunEv.step .enterPin ::
        (if r.enterPin then
          RunEv.step .submitPinForm ::
          RunEv.step .enterCrns ::
          (if r.enterCrns then
            RunEv.step .submitRegistration ::
            (if r.submitRegistration then
              [RunEv.infoBox "Registration completed successfully!"]
             else [RunEv.errorBox "Registration failed or had errors. Check logs."])
           else [RunEv.errorBox "Error: Failed to enter CRNs."])
         else [RunEv.errorBox "Error: Entering PIN failed."])
       else [RunEv.errorBox "Error: Term selection failed. Check TERM_ID and TERM_TEXT in config.txt."])
     else [RunEv.errorBox "Error: Login failed. Check credentials in config.txt."])
   else [RunEv.errorBox "Driver Error: Failed to create webdriver",
         RunEv.errorBox "Error: failed to create webdriver"])
  ++ [RunEv.reenable]

/-- Recognizer for user-visible message boxes. -/
def isUserBox : RunEv → Bool
  | .errorBox _ => true
  | .infoBox _ => true
  | _ => false

/-- State of the two start buttons (Main.py lines 215-218): both are
disabled together when a run starts (lines 398-399) and re-enabled
together by `_reenable_buttons_safe` (lines 386-394) from the finally
block of the run. -/
structure GuiState where
  btnEnabled : Bool
  deriving DecidableEq

/-- GUI-side events: a click on either start control, and the completion
of the run body (its finally block). -/
inductive GuiEv
  | startRequest
  | runFinished
  deriving DecidableEq

/-- One GUI transition: a start request on disabled buttons is dropped by
the toolkit (the bound command never fires), a start request on enabled
buttons disables both and launches the run thread
(`schedule_registration`, lines 396-402), and the finished run
re-enables them. The Bool records whether a new run was launched. -/
def guiStep (s : GuiState) : GuiEv → GuiState × Bool
  | .startRequest => if s.btnEnabled then (⟨false⟩, true) else (s, false)
  | .runFinished => (⟨true⟩, false)

/-- Folds a list of GUI events from a state, counting launched runs. -/
def guiRun : GuiState → List GuiEv → GuiState × ℕ
  | s, [] => (s, 0)
  | s, e :: es =>
    let p := guiStep s e
    let q := guiRun p.1 es
    (q.1, (if p.2 then 1 else 0) + q.2)

/-- Python `str.strip()` on the characters of one line: drop whitespace
at both ends. -/
def pyStrip (s : List Char) : List Char :=
  ((s.dropWhile Char.isWhitespace).reverse.dropWhile Char.isWhitespace).reverse

/-- Python `str.isdigit()` restricted to the ASCII fragment of the input
space modelled here: a character counts as a digit exactly when it is
one of the decimal digits 0-9. -/
def pyIsDigit (c : Char) : Bool := c.isDigit

/-- The list comprehension of Main.py line 580: keep lines whose stripped
form is nonempty and whose RAW form does not start with the comment
character, then strip them. -/
def crnLines (lines : List (List Char)) : List (List Char) :=
  (lines.filter (fun l => !(pyStrip l).isEmpty && !(l.head? == some '#'))).map pyStrip

/-- Validity check of Main.py line 585 for one CRN entry. -/
def isValidCrn (c : List Char) : Bool := c.length == 5 && c.all pyIsDigit

/-- CRN loading (Main.py `load_crns`, lines 573-594) on the lines of the
file (without their trailing newline): an empty filtered list or any
entry that is not exactly five digits raises a ValueError, otherwise the
filtered, stripped list is returned. -/
def load_crns (lines : List (List Char)) : Except String (List (List Char)) :=
  let crns := crnLines lines
  if crns.isEmpty then Except.error "crns.txt is empty. Please add your CRNs."
  else if (crns.filter (fun c => !(isValidCrn c))).isEmpty then Except.ok crns
  else Except.error "Invalid CRNs found. Each CRN must be 5 digits."

/-- Helper: once the current time has reached the buffer point, the
coarse loop exits at once, with no sleeps, at the current time. -/
lemma coarseLoop_exit (tmb now : ℚ) (fuel : ℕ) (h : ¬ now < tmb) :
    coarseLoop tmb now fuel = some ([], now) := by
  cases fuel <;> simp [coarseLoop, h]

/-- Helper: a completed coarse loop started strictly before the buffer
point exits in the window `[tmb, tmb + 1/2)`; started at or past it, it
exits immediately at the start time. -/
lemma coarseLoop_bound :
    ∀ (fuel : ℕ) (tmb now : ℚ) (ds : List ℚ) (t : ℚ),
      coarseLoop tmb now fuel = some (ds, t) →
      (now < tmb → tmb ≤ t ∧ t < tmb + 1/2) ∧ (¬ now < tmb → t = now) := by
  intro fuel
  induction fuel with
  | zero =>
    intro tmb now ds t h
    by_cases hlt : now < tmb
    · simp [coarseLoop, hlt] at h
    · simp [coarseLoop, hlt] at h
      exact ⟨fun hc => absurd hc hlt, fun _ => h.2.symm⟩
  | succ n ih =>
    intro tmb now ds t h
    by_cases hlt : now < tmb
    · simp only [coarseLoop, if_pos hlt] at h
      cases hin : coarseLoop tmb (now + sleepTier (tmb - now)) n with
      | none => rw [hin] at h; simp at h
      | some p =>
        obtain ⟨ds', t'⟩ := p
        rw [hin] at h
        simp only [Option.some.injEq, Prod.mk.injEq] at h
        obtain ⟨hds, ht⟩ := h
        have hrec := ih tmb (now + sleepTier (tmb - now)) ds' t' hin
        subst ht
        refine ⟨fun _ => ?_, fun hc => absurd hlt hc⟩
        by_cases h2 : now + sleepTier (tmb - now) < tmb
        · exact hrec.1 h2
        · have ht' := hrec.2 h2
          subst ht'
          have hr : 0 < tmb - now := by linarith
          unfold sleepTier at h2 ⊢
          split_ifs at h2 ⊢ with ha hb
          · exact absurd (by linarith) h2
          · exact absurd (by linarith) h2
          · push_neg at h2 ha hb
            constructor <;> linarith
    · rw [coarseLoop_exit tmb now _ hlt] at h
      simp only [Option.some.injEq, Prod.mk.injEq] at h
      exact ⟨fun hc => absurd hc hlt, fun _ => h.2.symm⟩

/-- Helper: along any event list, the number of runs the GUI launches
never exceeds the number of completed runs, plus one when the buttons
start out enabled. -/
lemma guiRun_launch_bound :
    ∀ (evs : List GuiEv) (s : GuiState),
      (guiRun s evs).2 ≤ evs.count GuiEv.runFinished + (if s.btnEnabled then 1 else 0) := by
  intro evs
  induction evs with
  | nil => intro s; simp [guiRun]
  | cons e es ih =>
    intro s
    cases e with
    | startRequest =>
      by_cases hb : s.btnEnabled
      · have h1 := ih ⟨false⟩
        simp only [guiRun, guiStep, hb, if_true, List.count_cons] at h1 ⊢
        simp at h1 ⊢
        omega
      · have h1 := ih s
        simp only [guiRun, guiStep, hb, if_false, List.count_cons] at h1 ⊢
        simp [hb] at h1 ⊢
        omega
    | runFinished =>
      have h1 := ih ⟨true⟩
      simp only [guiRun, guiStep, List.count_cons] at h1 ⊢
      simp at h1 ⊢
      omega

/-- C1: in the final synchronization step, for a probe whose response
carries a parsable Date header, the computed offset is the server time
minus the local time at receipt `tExit + dur`; the fire instant is
`target - offset`; the final sleep duration is that instant minus the
fresh now `tExit + dur + compDelay` sampled after the probe completed;
a positive duration yields exactly one un-polled sleep of that duration
(firing at the fire instant), and a zero or negative one yields the
warning and an immediate fire. -/
theorem c1_final_sync_arithmetic (target lead now0 serverTime dur compDelay : ℚ)
    (fuel : ℕ) (ds : List ℚ) (tExit : ℚ)
    (hc : coarseLoop (target - lead) now0 fuel = some (ds, tExit)) :
    schedulePhase target lead now0 fuel ⟨dur, ProbeOutcome.ok serverTime⟩ compDelay =
      some (ds.map Ev.tierSleep ++
        (if target - (serverTime - (tExit + dur)) - (tExit + dur + compDelay) > 0
         then [Ev.finalSleep (target - (serverTime - (tExit + dur)) - (tExit + dur + compDelay))]
         else [Ev.warnNoLead]) ++ [Ev.submitPin],
       if target - (serverTime - (tExit + dur)) - (tExit + dur + compDelay) > 0
       then target - (serverTime - (tExit + dur))
       else tExit + dur + compDelay) := by
  simp only [schedulePhase, hc, finalSyncPhase]
  split_ifs with h
  · norm_num
  · norm_num

/-- Witness for C1 at a concrete run: coarse wait already past the buffer
point, server clock 4 s ahead as seen at receipt, one 5 s final sleep,
firing at 96. -/
theorem c1_witness :
    schedulePhase 100 25 90 5 ⟨1, ProbeOutcome.ok 95⟩ 0 =
      some ([Ev.finalSleep 5, Ev.submitPin], 96) := by
  have h := c1_final_sync_arithmetic 100 25 90 95 1 0 5 [] 90
    (coarseLoop_exit _ _ _ (by norm_num))
  norm_num at h
  exact h

/-- C2: each iteration of the coarse-wait loop recomputes the remaining
time as `target - lead - now` from the freshly threaded current time;
the loop exits to the final sync exactly when the remaining time is at
most zero, and otherwise sleeps 30 s when remaining exceeds 30 s, 5 s
when it is in (5, 30], and 0.5 s when it is in (0, 5]. -/
theorem c2_coarse_wait_tiers (target lead now : ℚ) (fuel : ℕ) :
    (target - lead - now ≤ 0 → coarseLoop (target - lead) now fuel = some ([], now)) ∧
    (0 < target - lead - now →
      coarseLoop (target - lead) now (fuel + 1) =
        (coarseLoop (target - lead) (now + sleepTier (target - lead - now)) fuel).map
          (fun p => (sleepTier (target - lead - now) :: p.1, p.2))) ∧
    (30 < target - lead - now → sleepTier (target - lead - now) = 30) ∧
    (5 < target - lead - now ∧ target - lead - now ≤ 30 → sleepTier (target - lead - now) = 5) ∧
    (0 < target - lead - now ∧ target - lead - now ≤ 5 → sleepTier (target - lead - now) = 1/2) := by
  refine ⟨?_, ?_, ?_, ?_, ?_⟩
  · intro h
    exact coarseLoop_exit _ _ _ (by linarith)
  · intro h
    have hlt : now < target - lead := by linarith
    simp only [coarseLoop, if_pos hlt]
    cases hin : coarseLoop (target - lead) (now + sleepTier (target - lead - now)) fuel with
    | none => simp
    | some p => obtain ⟨a, b⟩ := p; simp
  · intro h
    simp [sleepTier, h]
  · rintro ⟨h1, h2⟩
    rw [sleepTier, if_neg (by linarith), if_pos h1]
  · rintro ⟨h1, h2⟩
    rw [sleepTier, if_neg (by linarith), if_neg (by linarith)]

/-- Witness for C2 at concrete remaining times in each tier and at the
exit condition. -/
theorem c2_witness :
    coarseLoop (100 - 25) 80 3 = some ([], 80) ∧
    sleepTier (100 - 25 - 30) = 30 ∧
    sleepTier (100 - 25 - 60) = 5 ∧
    sleepTier (100 - 25 - 72) = 1/2 ∧
    coarseLoop (100 - 25) 72 4 =
      (coarseLoop (100 - 25) (72 + sleepTier (100 - 25 - 72)) 3).map
        (fun p => (sleepTier (100 - 25 - 72) :: p.1, p.2)) := by
  refine ⟨(c2_coarse_wait_tiers 100 25 80 3).1 (by norm_num),
          (c2_coarse_wait_tiers 100 25 30 0).2.2.1 (by norm_num),
          (c2_coarse_wait_tiers 100 25 60 0).2.2.2.1 (by norm_num),
          (c2_coarse_wait_tiers 100 25 72 0).2.2.2.2 (by norm_num),
          (c2_coarse_wait_tiers 100 25 72 3).2.1 (by norm_num)⟩

/-- C3: when the single final-sync probe fails, the run does not abort:
the failure is logged, the scheduler falls back to sleeping until the
unmodified local target when that still lies ahead (firing at `target`)
and otherwise proceeds at once, and the time-critical submission event
occurs exactly once in the resulting trace. -/
theorem c3_final_sync_failure_fallback (target lead now0 dur compDelay : ℚ)
    (fuel : ℕ) (ds : List ℚ) (tExit : ℚ)
    (hc : coarseLoop (target - lead) now0 fuel = some (ds, tExit)) :
    schedulePhase target lead now0 fuel ⟨dur, ProbeOutcome.failed⟩ compDelay =
      some (ds.map Ev.tierSleep ++ Ev.syncFailedLog ::
        (if target - (tExit + dur + compDelay) > 0
         then [Ev.fallbackSleep (target - (tExit + dur + compDelay)), Ev.submitPin]
         else [Ev.submitPin]),
       if target - (tExit + dur + compDelay) > 0 then target else tExit + dur + compDelay) ∧
    (ds.map Ev.tierSleep ++ Ev.syncFailedLog ::
        (if target - (tExit + dur + compDelay) > 0
         then [Ev.fallbackSleep (target - (tExit + dur + compDelay)), Ev.submitPin]
         else [Ev.submitPin])).countP isSubmit = 1 := by
  constructor
  · simp only [schedulePhase, hc, finalSyncPhase]
    split_ifs with h
    · norm_num
    · norm_num
  · rw [List.countP_append]
    have hz : (ds.map Ev.tierSleep).countP isSubmit = 0 := by
      rw [List.countP_eq_zero]
      intro e he
      obtain ⟨d, _, rfl⟩ := List.mem_map.mp he
      simp [isSubmit]
    rw [hz]
    split_ifs <;> simp [isSubmit]

/-- Witness for C3 at a concrete failed probe: the run logs, sleeps until
the local target and submits once, firing at 65. -/
theorem c3_witness :
    schedulePhase 65 25 0 20 ⟨1, ProbeOutcome.failed⟩ 0 =
      some ([Ev.tierSleep 30, Ev.tierSleep 5, Ev.tierSleep (1/2), Ev.tierSleep (1/2),
        Ev.tierSleep (1/2), Ev.tierSleep (1/2), Ev.tierSleep (1/2), Ev.tierSleep (1/2),
        Ev.tierSleep (1/2), Ev.tierSleep (1/2), Ev.tierSleep (1/2), Ev.tierSleep (1/2),
        Ev.syncFailedLog, Ev.fallbackSleep 24, Ev.submitPin], 65) := by
  have h := c3_final_sync_failure_fallback 65 25 0 1 0 20
    [30, 5, 1/2, 1/2, 1/2, 1/2, 1/2, 1/2, 1/2, 1/2, 1/2, 1/2] 40
    (by norm_num [coarseLoop, sleepTier])
  norm_num at h
  exact h.1

/-- C4: a coarse wait started with `target - lead` still in the future
exits no earlier than one tier granularity before `target - lead` and no
later than one full largest-tier sleep of 30 s past it (the proof gives
the tighter window `[target - lead, target - lead + 1/2)`). -/
theorem c4_coarse_exit_window (target lead now0 : ℚ) (fuel : ℕ) (ds : List ℚ) (tExit : ℚ)
    (hfut : now0 < target - lead)
    (hc : coarseLoop (target - lead) now0 fuel = some (ds, tExit)) :
    target - lead - 1/2 ≤ tExit ∧ tExit ≤ target - lead + 30 := by
  have h := (coarseLoop_bound fuel (target - lead) now0 ds tExit hc).1 hfut
  constructor <;> linarith [h.1, h.2]

/-- Witness for C4 at the concrete run from 40 s out, which exits exactly
at the buffer point 40. -/
theorem c4_witness :
    (65 : ℚ) - 25 - 1/2 ≤ 40 ∧ (40 : ℚ) ≤ 65 - 25 + 30 := by
  refine c4_coarse_exit_window 65 25 0 20
    [30, 5, 1/2, 1/2, 1/2, 1/2, 1/2, 1/2, 1/2, 1/2, 1/2, 1/2] 40 (by norm_num) ?_
  norm_num [coarseLoop, sleepTier]

/-- Counterexample to C5 as stated: with the target instant exactly equal
to the current time, `start_at_time` schedules the run even though the
target does not lie strictly in the future. -/
theorem c5_counterexample :
    start_at_time 0 0 0 0 0 = StartOutcome.scheduled 0 ∧ ¬ ((0 : ℚ) < 0) := by
  norm_num [start_at_time, validate_time]

/-- C5 amended: a run is scheduled exactly for targets not strictly in
the past (the comparison of line 360 admits equality), and any valid
target strictly before the current sample is rejected as past before
any sleeping or scheduling happens. -/
theorem c5_amended_guard (hour minute second : ℤ) (base now : ℚ) :
    (∀ t, start_at_time hour minute second base now = StartOutcome.scheduled t →
      t = base + 3600 * (hour : ℚ) + 60 * (minute : ℚ) + (second : ℚ) ∧ now ≤ t) ∧
    ((0 ≤ hour ∧ hour ≤ 23 ∧ 0 ≤ minute ∧ minute ≤ 59 ∧ 0 ≤ second ∧ second ≤ 59) →
      base + 3600 * (hour : ℚ) + 60 * (minute : ℚ) + (second : ℚ) < now →
      start_at_time hour minute second base now = StartOutcome.pastDeadline) := by
  constructor
  · intro t ht
    unfold start_at_time validate_time at ht
    split_ifs at ht with h1
    · dsimp only at ht
      split_ifs at ht with h2
      injection ht with h3
      exact ⟨h3.symm, by rw [← h3]; push_neg at h2; exact h2⟩
  · intro hv hpast
    unfold start_at_time validate_time
    rw [if_pos hv]
    simp only
    rw [if_pos hpast]

/-- Witness for C5 amended: a future target is scheduled with the
scheduled time at or after the sample, and a past target is rejected. -/
theorem c5_amended_witness :
    ((7 : ℚ) = 0 + 3600 * ((0 : ℤ) : ℚ) + 60 * ((0 : ℤ) : ℚ) + ((7 : ℤ) : ℚ) ∧ (3 : ℚ) ≤ 7) ∧
    start_at_time 0 0 7 0 100 = StartOutcome.pastDeadline := by
  constructor
  · exact (c5_amended_guard 0 0 7 0 3).1 7 (by norm_num [start_at_time, validate_time])
  · exact (c5_amended_guard 0 0 7 0 100).2 (by norm_num) (by norm_num)

/-- Counterexample to C6 as stated: for target now + 65 s and lead 25 s
the coarse wait sleeps 30 s and then 5 s (followed by ten 0.5 s sleeps),
not 30 s and then 30 s. -/
theorem c6_counterexample :
    coarseLoop (65 - 25) 0 20 =
      some ([30, 5, 1/2, 1/2, 1/2, 1/2, 1/2, 1/2, 1/2, 1/2, 1/2, 1/2], 40) ∧
    ([(30 : ℚ), 5, 1/2, 1/2, 1/2, 1/2, 1/2, 1/2, 1/2, 1/2, 1/2, 1/2].take 2 ≠ [30, 30]) := by
  constructor
  · norm_num [coarseLoop, sleepTier]
  · norm_num

/-- C6 amended: for target now + 65 s and lead 25 s the coarse wait
performs tier sleeps of 30 s, 5 s and ten of 0.5 s, enters the final
sync exactly at T - 25 s, and (with an instantaneous probe agreeing with
the local clock) performs a single final computed sleep of 25 s, firing
exactly at T. -/
theorem c6_amended_scenario :
    schedulePhase 65 25 0 20 ⟨0, ProbeOutcome.ok 40⟩ 0 =
      some ([Ev.tierSleep 30, Ev.tierSleep 5, Ev.tierSleep (1/2), Ev.tierSleep (1/2),
        Ev.tierSleep (1/2), Ev.tierSleep (1/2), Ev.tierSleep (1/2), Ev.tierSleep (1/2),
        Ev.tierSleep (1/2), Ev.tierSleep (1/2), Ev.tierSleep (1/2), Ev.tierSleep (1/2),
        Ev.finalSleep 25, Ev.submitPin], 65) := by
  norm_num [schedulePhase, coarseLoop, sleepTier, finalSyncPhase]

/-- Counterexample to C7 as stated: a calibration run in which no trial
succeeds returns the fixed default 0.3, which lies outside the
configured range [0.5, 1] of the default parameters. -/
theorem c7_counterexample :
    calibrate_dynamic_buffer [] (1/20) (1/2) 1 = 3/10 ∧ ¬ ((1 : ℚ)/2 ≤ 3/10) := by
  norm_num [calibrate_dynamic_buffer]

/-- C7 amended: when at least one trial succeeds, the returned buffer is
the sorted delays' element at index `len // 2` (the upper median) plus
the margin, clamped into `[min_buffer, max_buffer]`, and whenever
`min_buffer ≤ max_buffer` the result lies in that range; with no
successful trial the code instead returns the fixed default 0.3, which
may lie outside the range. -/
theorem c7_amended_buffer (delays : List ℚ) (margin mn mx : ℚ) (hne : delays ≠ []) :
    calibrate_dynamic_buffer delays margin mn mx =
      max mn (min ((pySort delays).getD (delays.length / 2) 0 + margin) mx) ∧
    (mn ≤ mx →
      mn ≤ calibrate_dynamic_buffer delays margin mn mx ∧
      calibrate_dynamic_buffer delays margin mn mx ≤ mx) := by
  have h : delays.isEmpty = false := by
    cases delays with
    | nil => exact absurd rfl hne
    | cons a l => rfl
  refine ⟨by simp [calibrate_dynamic_buffer, h], fun hle => ?_⟩
  simp only [calibrate_dynamic_buffer, h, Bool.false_eq_true, if_false]
  exact ⟨le_max_left _ _, max_le hle (min_le_right _ _)⟩

/-- Witness for C7 amended at a single successful trial of 2 s with the
default margin and range. -/
theorem c7_amended_witness :
    (calibrate_dynamic_buffer [2] (1/20) (1/2) 1 =
      max (1/2) (min ((pySort [2]).getD (([] : List ℚ).length + 1 / 2) 0 + 1/20) 1)) ∧
    ((1 : ℚ)/2 ≤ calibrate_dynamic_buffer [2] (1/20) (1/2) 1 ∧
      calibrate_dynamic_buffer [2] (1/20) (1/2) 1 ≤ 1) := by
  have h := c7_amended_buffer [2] (1/20) (1/2) 1 (by norm_num)
  exact ⟨by simpa using h.1, h.2 (by norm_num)⟩

/-- C8: a start request while the buttons are disabled is dropped and
changes nothing; along any event sequence the number of launched runs
never exceeds the number of finished runs plus one (plus zero when the
buttons start disabled), so at most one run is active at a time; and
the run trace re-enables the start controls as its last event on every
exit path. -/
theorem c8_single_run_guard :
    (∀ s : GuiState, s.btnEnabled = false → guiStep s GuiEv.startRequest = (s, false)) ∧
    (∀ (s : GuiState) (evs : List GuiEv),
      (guiRun s evs).2 ≤ evs.count GuiEv.runFinished + (if s.btnEnabled then 1 else 0)) ∧
    (∀ r : StepResults, (runRegistrationTrace r).getLast? = some RunEv.reenable) := by
  refine ⟨?_, fun s evs => guiRun_launch_bound evs s, ?_⟩
  · intro s hs
    simp [guiStep, hs]
  · intro r
    rw [runRegistrationTrace, List.getLast?_append_cons]
    rfl

/-- Witness for C8: a second and a fourth click while a run is active are
rejected, and a fully successful run trace ends with the re-enable. -/
theorem c8_witness :
    guiStep ⟨false⟩ GuiEv.startRequest = (⟨false⟩, false) ∧
    (guiRun ⟨true⟩ [GuiEv.startRequest, GuiEv.startRequest, GuiEv.runFinished,
      GuiEv.startRequest]).2 ≤
      [GuiEv.startRequest, GuiEv.startRequest, GuiEv.runFinished,
        GuiEv.startRequest].count GuiEv.runFinished +
      (if (GuiState.mk true).btnEnabled then 1 else 0) ∧
    (runRegistrationTrace ⟨true, true, true, true, true, true, true⟩).getLast? =
      some RunEv.reenable := by
  exact ⟨c8_single_run_guard.1 ⟨false⟩ rfl,
    c8_single_run_guard.2.1 ⟨true⟩ _,
    c8_single_run_guard.2.2 ⟨true, true, true, true, true, true, true⟩⟩

/-- Counterexample to C9 as stated: a run in which the PIN-form
submission step reports failure still executes the subsequent CRN-entry
and final-submission steps, because line 492 ignores the return value of
`submit_pin_form`. -/
theorem c9_counterexample :
    (StepResults.mk true true true true false true true).submitPinForm = false ∧
    RunEv.step Step.enterCrns ∈ runRegistrationTrace ⟨true, true, true, true, false, true, true⟩ ∧
    RunEv.step Step.submitRegistration ∈
      runRegistrationTrace ⟨true, true, true, true, false, true, true⟩ := by
  refine ⟨rfl, ?_, ?_⟩ <;> simp [runRegistrationTrace]

/-- C9 amended: the pipeline is consumed in order with fail-fast
semantics for every checked step — login, term selection, PIN entry,
CRN entry and final submission: a failure there stops all later steps
and the run surfaces exactly one user-visible message box before
re-enabling the controls, with no crash (the trace is total). The one
exception among the steps is PIN-form submission, whose reported result
is ignored, so the sequence continues regardless of it. Driver creation
(before the pipeline) is the other special path: its failure shows its
own box and then the thread handler's, two boxes in all. -/
theorem c9_amended_fail_fast (r : StepResults) :
    (r.driverOk = true → (runRegistrationTrace r).countP isUserBox = 1) ∧
    (r.driverOk = false → (runRegistrationTrace r).countP isUserBox = 2) ∧
    ((runRegistrationTrace r).getLast? = some RunEv.reenable) ∧
    (r.driverOk = true → r.login = false →
      runRegistrationTrace r = [RunEv.step .login,
        RunEv.errorBox "Error: Login failed. Check credentials in config.txt.",
        RunEv.reenable]) ∧
    (r.driverOk = true → r.login = true → r.selectTerm = false →
      runRegistrationTrace r = [RunEv.step .login, RunEv.step .selectTerm,
        RunEv.errorBox "Error: Term selection failed. Check TERM_ID and TERM_TEXT in config.txt.",
        RunEv.reenable]) ∧
    (r.driverOk = true → r.login = true → r.selectTerm = true → r.enterPin = false →
      runRegistrationTrace r = [RunEv.step .login, RunEv.step .selectTerm, RunEv.step .enterPin,
        RunEv.errorBox "Error: Entering PIN failed.",
        RunEv.reenable]) ∧
    (r.driverOk = true → r.login = true → r.selectTerm = true → r.enterPin = true →
      r.enterCrns = false →
      runRegistrationTrace r = [RunEv.step .login, RunEv.step .selectTerm, RunEv.step .enterPin,
        RunEv.step .submitPinForm, RunEv.step .enterCrns,
        RunEv.errorBox "Error: Failed to enter CRNs.",
        RunEv.reenable]) ∧
    (r.driverOk = true → r.login = true → r.selectTerm = true → r.enterPin = true →
      r.enterCrns = true → r.submitRegistration = false →
      runRegistrationTrace r = [RunEv.step .login, RunEv.step .selectTerm, RunEv.step .enterPin,
        RunEv.step .submitPinForm, RunEv.step .enterCrns, RunEv.step .submitRegistration,
        RunEv.errorBox "Registration failed or had errors. Check logs.",
        RunEv.reenable]) := by
  obtain ⟨d, l, t, p, pf, c, sr⟩ := r
  cases d <;> cases l <;> cases t <;> cases p <;> cases pf <;> cases c <;> cases sr <;>
    refine ⟨?_, ?_, by rfl, ?_, ?_, ?_, ?_, ?_⟩ <;> intros <;> first | rfl | simp_all

/-- Witness for C9 amended: a failed login stops the run after one error
box, a successful run shows one box, a failed driver creation shows two,
and a fully successful run still ends with the re-enable. -/
theorem c9_amended_witness :
    runRegistrationTrace ⟨true, false, true, true, true, true, true⟩ =
      [RunEv.step .login,
       RunEv.errorBox "Error: Login failed. Check credentials in config.txt.",
       RunEv.reenable] ∧
    (runRegistrationTrace ⟨true, true, true, true, true, true, true⟩).countP isUserBox = 1 ∧
    (runRegistrationTrace ⟨false, true, true, true, true, true, true⟩).countP isUserBox = 2 ∧
    (runRegistrationTrace ⟨true, true, true, true, true, true, true⟩).getLast? =
      some RunEv.reenable := by
  exact ⟨(c9_amended_fail_fast ⟨true, false, true, true, true, true, true⟩).2.2.2.1 rfl rfl,
    (c9_amended_fail_fast ⟨true, true, true, true, true, true, true⟩).1 rfl,
    (c9_amended_fail_fast ⟨false, true, true, true, true, true, true⟩).2.1 rfl,
    (c9_amended_fail_fast ⟨true, true, true, true, true, true, true⟩).2.2.1⟩

/-- C10: `load_crns` succeeds exactly when the filtered, stripped list of
non-blank, non-comment lines is nonempty and every entry is exactly five
decimal digits, in which case it returns precisely that list (so after a
successful load the CRN list is nonempty and all entries are five-digit
strings); in every other case it reports a ValueError. -/
theorem c10_load_crns_spec (lines : List (List Char)) :
    ((∃ cs, load_crns lines = Except.ok cs) ↔
      (crnLines lines ≠ [] ∧
        ∀ c ∈ crnLines lines, c.length = 5 ∧ ∀ ch ∈ c, pyIsDigit ch = true)) ∧
    (∀ cs, load_crns lines = Except.ok cs →
      cs = crnLines lines ∧ cs ≠ [] ∧
        ∀ c ∈ cs, c.length = 5 ∧ ∀ ch ∈ c, pyIsDigit ch = true) := by
  have hval : ∀ c : List Char,
      isValidCrn c = true ↔ c.length = 5 ∧ ∀ ch ∈ c, pyIsDigit ch = true := by
    intro c
    simp [isValidCrn, List.all_eq_true]
  by_cases he : (crnLines lines).isEmpty
  · have hnil : crnLines lines = [] := by simpa [List.isEmpty_iff] using he
    constructor
    · constructor
      · rintro ⟨cs, hcs⟩
        rw [load_crns] at hcs
        simp [he] at hcs
      · rintro ⟨hne, _⟩
        exact absurd hnil hne
    · intro cs hcs
      rw [load_crns] at hcs
      simp [he] at hcs
  · by_cases hv : (crnLines lines).filter (fun c => !(isValidCrn c)) = []
    · have hall : ∀ c ∈ crnLines lines, c.length = 5 ∧ ∀ ch ∈ c, pyIsDigit ch = true := by
        intro c hc
        rw [← hval c]
        have := List.filter_eq_nil_iff.mp hv c hc
        simpa using this
      have hok : load_crns lines = Except.ok (crnLines lines) := by
        rw [load_crns]
        simp [he, hv]
      constructor
      · exact ⟨fun _ => ⟨by simpa [List.isEmpty_iff] using he, hall⟩,
          fun _ => ⟨crnLines lines, hok⟩⟩
      · intro cs hcs
        rw [hok] at hcs
        injection hcs with h
        subst h
        exact ⟨rfl, by simpa [List.isEmpty_iff] using he, hall⟩
    · have herr : load_crns lines =
          Except.error "Invalid CRNs found. Each CRN must be 5 digits." := by
        rw [load_crns]
        simp [he, hv]
      constructor
      · constructor
        · rintro ⟨cs, hcs⟩
          rw [herr] at hcs
          exact absurd hcs (by simp)
        · rintro ⟨_, hall⟩
          refine absurd ?_ hv
          rw [List.filter_eq_nil_iff]
          intro c hc
          have h5 := (hval c).mpr (hall c hc)
          simp [h5]
      · intro cs hcs
        rw [herr] at hcs
        exact absurd hcs (by simp)

/-- Witness for C10 on a concrete file with a comment line, a blank line
and one padded valid CRN. -/
theorem c10_witness :
    load_crns [String.toList "# comment", String.toList "", String.toList " 12345 "] =
      Except.ok (crnLines [String.toList "# comment", String.toList "", String.toList " 12345 "]) ∧
    crnLines [String.toList "# comment", String.toList "", String.toList " 12345 "] ≠ [] := by
  have h := (c10_load_crns_spec
    [String.toList "# comment", String.toList "", String.toList " 12345 "]).2
    [String.toList "12345"] (by rfl)
  exact ⟨by rw [← h.1]; rfl, by rw [← h.1]; exact h.2.1⟩

end BereaBot
